import Mathlib

/-!
Verification of the rocket_factory weather service.

The embedding mirrors `pkg/models` (the `Weather` record and the
`WeatherStorage` map) and the two HTTP handlers of `cmd/http_server/main.go`.
The Go map `map[string]*Weather` is modelled as a function
`String → Option Weather`; the handlers receive the chi path parameter as a
`String`, the JSON-decoded request body as an `Option Weather` (`none` when
`json.Decoder.Decode` fails on malformed input), and the server clock value
`time.Now()` as a `Nat` timestamp.  Stateful methods are translated in
explicit state-passing style: each returns its result together with the
(possibly updated) storage.
-/

/-- Weather presents info about a weather of a specific city
(`pkg/models`, struct `Weather`). -/
structure Weather where
  /-- Name of the city (json tag `city`). -/
  city : String
  /-- Temperature in Celsius (json tag `temperature`). -/
  temperature : Float
  /-- Last updated time (json tag `updated_at`), modelled as a `Nat` tick. -/
  updatedAt : Nat

/-- WeatherStorage is a thread safe storage for weather
(`pkg/models/storage.go`).  The `sync.RWMutex` field has no pure content;
the map field `weathers` is modelled as a function into `Option Weather`. -/
@[ext]
structure WeatherStorage where
  weathers : String → Option Weather

/-- NewWeatherStorage creates a new storage for weather data:
the empty map. -/
def NewWeatherStorage : WeatherStorage :=
  { weathers := fun _ => none }

/-- GetWeather returns data about the weather by the city name;
if not found it returns nil (`none`).  The storage is returned unchanged
because the method body performs no write. -/
def GetWeather (s : WeatherStorage) (city : String) :
    Option Weather × WeatherStorage :=
  match s.weathers city with
  | none => (none, s)
  | some weather => (some weather, s)

/-- UpdateWeather updates weather information for the given city;
if it does not exist it creates one (`s.weathers[weather.City] = weather`). -/
def UpdateWeather (s : WeatherStorage) (weather : Weather) : WeatherStorage :=
  { weathers := fun c => if c = weather.city then some weather else s.weathers c }

/-- A JSON leaf value as produced by `render.JSON` for a `Weather` record. -/
inductive JsonValue where
  | str : String → JsonValue
  | num : Float → JsonValue
  | time : Nat → JsonValue

/-- JSON object rendered for a `Weather` record, following the struct's
json tags: `city`, `temperature`, `updated_at`. -/
def weatherToJson (w : Weather) : List (String × JsonValue) :=
  [("city", JsonValue.str w.city),
   ("temperature", JsonValue.num w.temperature),
   ("updated_at", JsonValue.time w.updatedAt)]

/-- Body of an HTTP response: plain text written by `http.Error`, or a JSON
object written by `render.JSON`. -/
inductive ResponseBody where
  | text : String → ResponseBody
  | json : List (String × JsonValue) → ResponseBody

/-- An HTTP response: a status code and a body. -/
structure Response where
  status : Nat
  body : ResponseBody

/-- getWeatherHandler processes requests for getting information about the
weather for a specific city (`cmd/http_server/main.go`).  Input: the storage
and the chi `city` path parameter; output: the response and the storage after
the call. -/
def getWeatherHandler (storage : WeatherStorage) (city : String) :
    Response × WeatherStorage :=
  if city = "" then
    ({ status := 400, body := ResponseBody.text "City parameter is required" },
     storage)
  else
    match GetWeather storage city with
    | (none, storage) =>
      ({ status := 404,
         body := ResponseBody.text
           ("Weather for city '" ++ city ++ "' not found") }, storage)
    | (some weather, storage) =>
      ({ status := 200, body := ResponseBody.json (weatherToJson weather) },
       storage)

/-- updateWeatherHandler processes requests for updating information about the
weather for a specific city (`cmd/http_server/main.go`).  Input: the storage,
the chi `city` path parameter, the JSON-decoded request body (`none` when the
decoder fails) and the current server time; output: the response and the
storage after the call. -/
def updateWeatherHandler (storage : WeatherStorage) (city : String)
    (body : Option Weather) (now : Nat) : Response × WeatherStorage :=
  if city = "" then
    ({ status := 400, body := ResponseBody.text "City parameter is required" },
     storage)
  else
    match body with
    | none =>
      ({ status := 400, body := ResponseBody.text "Invalid request body" },
       storage)
    | some weatherUpdate =>
      let weatherUpdate :=
        { weatherUpdate with city := city, updatedAt := now }
      let storage := UpdateWeather storage weatherUpdate
      ({ status := 200,
         body := ResponseBody.json (weatherToJson weatherUpdate) }, storage)

/-- Storage states reachable from the empty storage by any sequence of
`GetWeather` and `UpdateWeather` calls (`GetWeather` returns the storage
unchanged, so only the puts matter for the state). -/
inductive Reachable : WeatherStorage → Prop where
  | init : Reachable NewWeatherStorage
  | get {s : WeatherStorage} (city : String) : Reachable s →
      Reachable (GetWeather s city).2
  | put {s : WeatherStorage} (w : Weather) : Reachable s →
      Reachable (UpdateWeather s w)

/-- Applies a sequence of `UpdateWeather` calls, oldest first. -/
def applyPuts (s : WeatherStorage) : List Weather → WeatherStorage
  | [] => s
  | w :: ws => applyPuts (UpdateWeather s w) ws

/-! ### Basic lemmas about the storage operations -/

/-- The value returned by `GetWeather` is exactly the map lookup. -/
theorem GetWeather_fst (s : WeatherStorage) (city : String) :
    (GetWeather s city).1 = s.weathers city := by
  unfold GetWeather
  cases s.weathers city <;> rfl

/-- `GetWeather` returns the storage unchanged. -/
theorem GetWeather_snd (s : WeatherStorage) (city : String) :
    (GetWeather s city).2 = s := by
  unfold GetWeather
  cases s.weathers city <;> rfl

/-- The map after `UpdateWeather`. -/
theorem UpdateWeather_weathers (s : WeatherStorage) (w : Weather) (c : String) :
    (UpdateWeather s w).weathers c =
      if c = w.city then some w else s.weathers c := rfl

/-- Overwriting the same key twice keeps only the second record. -/
theorem UpdateWeather_overwrite (s : WeatherStorage) (w1 w2 : Weather)
    (h : w1.city = w2.city) :
    UpdateWeather (UpdateWeather s w1) w2 = UpdateWeather s w2 := by
  ext c
  by_cases hc : c = w2.city <;>
    simp [UpdateWeather_weathers, hc, h]

/-- `GetWeather` as a pair: the lookup result and the unchanged storage. -/
theorem GetWeather_eq (s : WeatherStorage) (city : String) :
    GetWeather s city = (s.weathers city, s) := by
  unfold GetWeather
  cases s.weathers city <;> rfl

/-- On a non-empty city and a decodable body, the update handler stamps the
path city and the server time onto the decoded record, stores it, and
returns it with status 200. -/
theorem updateWeatherHandler_success (s : WeatherStorage) (city : String)
    (b : Weather) (now : Nat) (h : city ≠ "") :
    updateWeatherHandler s city (some b) now =
      ({ status := 200,
         body := ResponseBody.json (weatherToJson ⟨city, b.temperature, now⟩) },
       UpdateWeather s ⟨city, b.temperature, now⟩) := by
  simp [updateWeatherHandler, h]

/-! ### Claim theorems -/

/-- C1: after `Put(r)`, `Get(r.city)` returns exactly `r`; on the handler
path the stored record equals the decoded body except that `updatedAt` is the
server-stamped time; and last-write-wins: after `Put(r1)` then `Put(r2)` on
the same city, `Get` of that city returns `r2`. -/
theorem put_get_last_write_wins (s : WeatherStorage) (r r1 r2 b : Weather)
    (city : String) (now : Nat) (hb : b.city = city) (h12 : r1.city = r2.city)
    (hcity : city ≠ "") :
    (GetWeather (UpdateWeather s r) r.city).1 = some r ∧
    (GetWeather (updateWeatherHandler s city (some b) now).2 city).1 =
      some { b with updatedAt := now } ∧
    (GetWeather (UpdateWeather (UpdateWeather s r1) r2) r2.city).1 = some r2 := by
  obtain ⟨bc, bt, bu⟩ := b
  subst hb
  refine ⟨?_, ?_, ?_⟩
  · rw [GetWeather_fst, UpdateWeather_weathers, if_pos rfl]
  · rw [updateWeatherHandler_success s _ _ now hcity]
    rw [GetWeather_fst, UpdateWeather_weathers, if_pos rfl]
  · rw [UpdateWeather_overwrite s r1 r2 h12,
      GetWeather_fst, UpdateWeather_weathers, if_pos rfl]

/-- C1 witness: concrete instance with city `Moscow`. -/
theorem put_get_last_write_wins_witness :
    (GetWeather (UpdateWeather NewWeatherStorage ⟨"Moscow", 21.5, 3⟩)
        "Moscow").1 = some ⟨"Moscow", 21.5, 3⟩ ∧
    (GetWeather (updateWeatherHandler NewWeatherStorage "Moscow"
        (some ⟨"Moscow", 21.5, 99⟩) 7).2 "Moscow").1 =
      some ⟨"Moscow", 21.5, 7⟩ ∧
    (GetWeather (UpdateWeather (UpdateWeather NewWeatherStorage
        ⟨"Moscow", 20.0, 1⟩) ⟨"Moscow", 25.0, 2⟩) "Moscow").1 =
      some ⟨"Moscow", 25.0, 2⟩ :=
  put_get_last_write_wins NewWeatherStorage ⟨"Moscow", 21.5, 3⟩
    ⟨"Moscow", 20.0, 1⟩ ⟨"Moscow", 25.0, 2⟩ ⟨"Moscow", 21.5, 99⟩
    "Moscow" 7 rfl rfl (by decide)

/-- C2: in every storage state reachable from the empty storage by `Get` and
`Put` operations, every record stored under key `c` has `city = c`. -/
theorem reachable_key_city_invariant {s : WeatherStorage} (hs : Reachable s) :
    ∀ c w, s.weathers c = some w → w.city = c := by
  induction hs with
  | init =>
    intro c w h
    exact absurd h (by simp [NewWeatherStorage])
  | get city hs ih =>
    intro c w h
    rw [GetWeather_snd] at h
    exact ih c w h
  | put w0 hs ih =>
    intro c w h
    rw [UpdateWeather_weathers] at h
    by_cases hc : c = w0.city
    · rw [if_pos hc] at h
      cases h
      exact hc.symm
    · rw [if_neg hc] at h
      exact ih c w h

/-- C2 witness: the invariant evaluated on a concrete reachable state. -/
theorem reachable_key_city_invariant_witness :
    (⟨"Moscow", 21.5, 0⟩ : Weather).city = "Moscow" :=
  reachable_key_city_invariant
    (Reachable.put ⟨"Moscow", 21.5, 0⟩ Reachable.init) "Moscow"
    ⟨"Moscow", 21.5, 0⟩ (by rw [UpdateWeather_weathers, if_pos rfl])

/-- C3: on a successful update-handler call (non-empty path city, decodable
body) the persisted and returned record has `city` equal to the path
identifier and `updatedAt` equal to the server time, whatever city and
updatedAt the body carried; only the body's temperature is kept. -/
theorem updateWeatherHandler_path_and_time_authoritative
    (s : WeatherStorage) (city : String) (b : Weather) (now : Nat)
    (h : city ≠ "") :
    (updateWeatherHandler s city (some b) now).2.weathers city =
      some ⟨city, b.temperature, now⟩ ∧
    (updateWeatherHandler s city (some b) now).1 =
      { status := 200,
        body := ResponseBody.json (weatherToJson ⟨city, b.temperature, now⟩) } := by
  rw [updateWeatherHandler_success s city b now h]
  exact ⟨by rw [UpdateWeather_weathers, if_pos rfl], rfl⟩

/-- C3 witness: the body's city and updatedAt are discarded. -/
theorem updateWeatherHandler_path_and_time_authoritative_witness :
    (updateWeatherHandler NewWeatherStorage "Moscow"
        (some ⟨"London", 21.5, 42⟩) 7).2.weathers "Moscow" =
      some ⟨"Moscow", 21.5, 7⟩ ∧
    (updateWeatherHandler NewWeatherStorage "Moscow"
        (some ⟨"London", 21.5, 42⟩) 7).1 =
      { status := 200,
        body := ResponseBody.json (weatherToJson ⟨"Moscow", 21.5, 7⟩) } :=
  updateWeatherHandler_path_and_time_authoritative NewWeatherStorage "Moscow"
    ⟨"London", 21.5, 42⟩ 7 (by decide)

/-- C4: the get handler answers 400 on an empty path city, 404 when the city
has no stored entry, and otherwise 200 with the stored record rendered as a
JSON object with fields city, temperature and updated_at; the storage is
never modified. -/
theorem getWeatherHandler_spec (s : WeatherStorage) (city : String) :
    (city = "" →
      getWeatherHandler s city =
        ({ status := 400,
           body := ResponseBody.text "City parameter is required" }, s)) ∧
    (city ≠ "" → s.weathers city = none →
      getWeatherHandler s city =
        ({ status := 404,
           body := ResponseBody.text
             ("Weather for city '" ++ city ++ "' not found") }, s)) ∧
    (∀ w, city ≠ "" → s.weathers city = some w →
      getWeatherHandler s city =
        ({ status := 200,
           body := ResponseBody.json
             [("city", JsonValue.str w.city),
              ("temperature", JsonValue.num w.temperature),
              ("updated_at", JsonValue.time w.updatedAt)] }, s)) := by
  refine ⟨fun h => ?_, fun h hn => ?_, fun w h hw => ?_⟩
  · simp [getWeatherHandler, h]
  · simp [getWeatherHandler, h, GetWeather_eq, hn]
  · simp [getWeatherHandler, h, GetWeather_eq, hw, weatherToJson]

/-- C4 witness: the three branches evaluated on concrete requests. -/
theorem getWeatherHandler_spec_witness :
    (getWeatherHandler NewWeatherStorage "" =
      ({ status := 400,
         body := ResponseBody.text "City parameter is required" },
       NewWeatherStorage)) ∧
    (getWeatherHandler NewWeatherStorage "Moscow" =
      ({ status := 404,
         body := ResponseBody.text "Weather for city 'Moscow' not found" },
       NewWeatherStorage)) ∧
    (getWeatherHandler (UpdateWeather NewWeatherStorage ⟨"Moscow", 21.5, 3⟩)
        "Moscow" =
      ({ status := 200,
         body := ResponseBody.json
           [("city", JsonValue.str "Moscow"),
            ("temperature", JsonValue.num 21.5),
            ("updated_at", JsonValue.time 3)] },
       UpdateWeather NewWeatherStorage ⟨"Moscow", 21.5, 3⟩)) :=
  ⟨(getWeatherHandler_spec NewWeatherStorage "").1 rfl,
   (getWeatherHandler_spec NewWeatherStorage "Moscow").2.1 (by decide) rfl,
   (getWeatherHandler_spec
      (UpdateWeather NewWeatherStorage ⟨"Moscow", 21.5, 3⟩) "Moscow").2.2
     ⟨"Moscow", 21.5, 3⟩ (by decide)
     (by rw [UpdateWeather_weathers, if_pos rfl])⟩

/-- C5: the update handler answers 400 exactly when the path city is empty or
the body fails to decode; on failure the storage is unchanged, and on success
the status is 200 and the storage is mutated by exactly one `UpdateWeather`
call; no other property of the payload causes a failure. -/
theorem updateWeatherHandler_failure_spec (s : WeatherStorage) (city : String)
    (body : Option Weather) (now : Nat) :
    ((updateWeatherHandler s city body now).1.status = 400 ↔
      city = "" ∨ body = none) ∧
    ((updateWeatherHandler s city body now).1.status = 400 →
      (updateWeatherHandler s city body now).2 = s) ∧
    ((updateWeatherHandler s city body now).1.status ≠ 400 →
      (updateWeatherHandler s city body now).1.status = 200 ∧
      ∃ w, (updateWeatherHandler s city body now).2 = UpdateWeather s w) := by
  by_cases h : city = ""
  · simp [updateWeatherHandler, h]
  · cases body with
    | none => simp [updateWeatherHandler, h]
    | some b =>
      rw [updateWeatherHandler_success s city b now h]
      refine ⟨by simp [h], by simp, fun _ => ⟨rfl, ⟨city, b.temperature, now⟩, rfl⟩⟩

/-- C5 witness: the spec evaluated on a concrete failing and a concrete
successful request. -/
theorem updateWeatherHandler_failure_spec_witness :
    ((updateWeatherHandler NewWeatherStorage "" none 5).1.status = 400 ↔
      ("" : String) = "" ∨ (none : Option Weather) = none) ∧
    ((updateWeatherHandler NewWeatherStorage "" none 5).1.status = 400 →
      (updateWeatherHandler NewWeatherStorage "" none 5).2 =
        NewWeatherStorage) ∧
    ((updateWeatherHandler NewWeatherStorage "" none 5).1.status ≠ 400 →
      (updateWeatherHandler NewWeatherStorage "" none 5).1.status = 200 ∧
      ∃ w, (updateWeatherHandler NewWeatherStorage "" none 5).2 =
        UpdateWeather NewWeatherStorage w) :=
  updateWeatherHandler_failure_spec NewWeatherStorage "" none 5

/-- A key no put in the sequence writes keeps its `none` entry. -/
theorem applyPuts_preserves_none (ws : List Weather) (s : WeatherStorage)
    (c : String) (hs : s.weathers c = none) (h : ∀ w ∈ ws, w.city ≠ c) :
    (applyPuts s ws).weathers c = none := by
  induction ws generalizing s with
  | nil => exact hs
  | cons w ws ih =>
    refine ih (UpdateWeather s w) ?_ (fun v hv => h v (List.mem_cons_of_mem w hv))
    rw [UpdateWeather_weathers,
      if_neg (fun hc => h w (List.mem_cons_self w ws) hc.symm), hs]

/-- C6: for a city never written by any put since the storage was created
empty, `GetWeather` returns the explicit absent value `none` (an `Option`
result, not an error) and leaves the storage unchanged. -/
theorem get_never_written (ws : List Weather) (c : String)
    (h : ∀ w ∈ ws, w.city ≠ c) :
    (GetWeather (applyPuts NewWeatherStorage ws) c).1 = none ∧
    (GetWeather (applyPuts NewWeatherStorage ws) c).2 =
      applyPuts NewWeatherStorage ws := by
  refine ⟨?_, GetWeather_snd _ _⟩
  rw [GetWeather_fst]
  exact applyPuts_preserves_none ws NewWeatherStorage c rfl h

/-- C6 witness: `Paris` was never written, `Get` of it is absent. -/
theorem get_never_written_witness :
    (GetWeather (applyPuts NewWeatherStorage [⟨"Moscow", 21.5, 1⟩])
        "Paris").1 = none ∧
    (GetWeather (applyPuts NewWeatherStorage [⟨"Moscow", 21.5, 1⟩])
        "Paris").2 = applyPuts NewWeatherStorage [⟨"Moscow", 21.5, 1⟩] :=
  get_never_written [⟨"Moscow", 21.5, 1⟩] "Paris"
    (by intro w hw; rw [List.mem_singleton] at hw; subst hw; decide)

/-- C7: `Put` is idempotent: putting the same record twice leaves the same
storage as putting it once; on the handler path two identical update calls
(with the clock advancing from `now1` to `now2`) leave the same storage as a
single call at time `now2`. -/
theorem updateWeather_idempotent (s : WeatherStorage) (r : Weather)
    (city : String) (body : Option Weather) (now1 now2 : Nat) :
    UpdateWeather (UpdateWeather s r) r = UpdateWeather s r ∧
    (updateWeatherHandler (updateWeatherHandler s city body now1).2
        city body now2).2 =
      (updateWeatherHandler s city body now2).2 := by
  refine ⟨UpdateWeather_overwrite s r r rfl, ?_⟩
  by_cases h : city = ""
  · simp [updateWeatherHandler, h]
  · cases body with
    | none => simp [updateWeatherHandler, h]
    | some b =>
      rw [updateWeatherHandler_success s city b now1 h,
        updateWeatherHandler_success s city b now2 h,
        updateWeatherHandler_success _ city b now2 h]
      exact UpdateWeather_overwrite s _ _ rfl

/-- C8: frame property: `Put(r)` changes no map entry other than the one for
`r.city`, and `Get` leaves the whole storage unchanged. -/
theorem put_get_frame (s : WeatherStorage) (r : Weather) (c : String)
    (h : c ≠ r.city) :
    (UpdateWeather s r).weathers c = s.weathers c ∧
    ∀ c2, (GetWeather s c2).2 = s := by
  exact ⟨by rw [UpdateWeather_weathers, if_neg h], fun c2 => GetWeather_snd s c2⟩

/-- C8 witness: a put for `Moscow` does not touch the entry for `Paris`. -/
theorem put_get_frame_witness :
    (UpdateWeather NewWeatherStorage ⟨"Moscow", 21.5, 1⟩).weathers "Paris" =
      NewWeatherStorage.weathers "Paris" ∧
    ∀ c2, (GetWeather NewWeatherStorage c2).2 = NewWeatherStorage :=
  put_get_frame NewWeatherStorage ⟨"Moscow", 21.5, 1⟩ "Paris" (by decide)

/-- C10: the storage itself performs no city validation: a record with an
empty city is stored under the empty-string key and `GetWeather ""` returns
it; the empty-city rejection (status 400) lives only in the HTTP handlers. -/
theorem store_accepts_empty_city (s : WeatherStorage) (r : Weather)
    (h : r.city = "") :
    (UpdateWeather s r).weathers "" = some r ∧
    (GetWeather (UpdateWeather s r) "").1 = some r ∧
    (getWeatherHandler s "").1.status = 400 ∧
    ∀ body now, (updateWeatherHandler s "" body now).1.status = 400 := by
  refine ⟨?_, ?_, rfl, fun body now => rfl⟩
  · rw [UpdateWeather_weathers, if_pos h.symm]
  · rw [GetWeather_fst, UpdateWeather_weathers, if_pos h.symm]

/-- C10 witness: an empty-city record stored and read back concretely. -/
theorem store_accepts_empty_city_witness :
    (UpdateWeather NewWeatherStorage ⟨"", 21.5, 1⟩).weathers "" =
      some ⟨"", 21.5, 1⟩ ∧
    (GetWeather (UpdateWeather NewWeatherStorage ⟨"", 21.5, 1⟩) "").1 =
      some ⟨"", 21.5, 1⟩ ∧
    (getWeatherHandler NewWeatherStorage "").1.status = 400 ∧
    ∀ body now,
      (updateWeatherHandler NewWeatherStorage "" body now).1.status = 400 :=
  store_accepts_empty_city NewWeatherStorage ⟨"", 21.5, 1⟩ rfl
